import Mathlib

/-!
Shallow embedding of the Porter port-block allocator (porter.go).

Ports and port bounds are modelled as `Int` (Go `int`). External effects are
parameters: the ephemeral port range is an `(ephemeralMin, ephemeralMax)`
pair, the random block draw is an explicit argument, the TCP bind outcome of
`alloc` is a Boolean, and the port probe `IsPortInUse` is an oracle
`used : Int → Bool`. A Go runtime panic (index out of range, slice bounds out
of range, close of closed channel) is modelled as `none` / a dedicated
outcome constructor.
-/

/-- Config mirrors the Go `Config` struct (the `OS` field only selects the
ephemeral-range provider, which is an external collaborator, so it is not
modelled). -/
structure Config where
  BlockSize : Int
  MaxBlocks : Int
  LowerBound : Int
deriving DecidableEq, Repr

/-- Porter mirrors the mutable state of the Go `Porter` struct: the listener
lock `ln` is modelled by whether it is held, and the stop channel by whether
it has been closed. -/
structure Porter where
  blockSize : Int
  firstPort : Int
  freePorts : List Int
  pendingPorts : List Int
  lnHeld : Bool
  stopChClosed : Bool
deriving DecidableEq, Repr

/-- rangeOverlap, translated from porter.go lines 309-317. -/
def rangeOverlap (min1 max1 min2 max2 : Int) : Bool :=
  if min1 > max1 then false
  else if min2 > max2 then false
  else min1 ≤ max2 && min2 ≤ max1

/-- adjustMaxBlocks, translated from porter.go lines 126-145, with the
ephemeral range passed in (the Go code obtains it from the external
`ephemeralPortRange` provider). Starting from `MaxBlocks` (set in `New`,
line 76), the loop over `block = 0 .. MaxBlocks-1` overwrites
`effectiveMaxBlocks` with `block` each time that block's span
`[min, min+BlockSize-1]` overlaps the ephemeral range; there is no `break`. -/
def adjustMaxBlocks (cfg : Config) (ephemeralMin ephemeralMax : Int) : Int :=
  (List.range cfg.MaxBlocks.toNat).foldl
    (fun eff block =>
      let lo := cfg.LowerBound + (block : Int) * cfg.BlockSize
      let hi := lo + cfg.BlockSize
      if rangeOverlap lo (hi - 1) ephemeralMin ephemeralMax then (block : Int) else eff)
    cfg.MaxBlocks

/-- Return, translated from porter.go lines 181-194. Note the bound on
line 190 multiplies: `port > p.firstPort && port < p.firstPort*p.config.BlockSize`. -/
def Porter.Return (p : Porter) (ports : List Int) : Porter :=
  if ports = [] then p
  else
    { p with
      pendingPorts :=
        ports.foldl
          (fun acc port =>
            if p.firstPort < port ∧ port < p.firstPort * p.blockSize
            then acc ++ [port] else acc)
          p.pendingPorts }

/-- The `for len(ports) < n` loop of Take (porter.go lines 157-166): pop the
head of `freePorts`, re-probe it, skip it if now in use, otherwise append it
to the result. `none` models the Go runtime panic (index out of range) that
`p.freePorts[0]` raises when the slice is empty while `len(ports) < n`. -/
def takeGo (used : Int → Bool) (n : Nat) (free acc : List Int) :
    Option (List Int × List Int) :=
  if acc.length ≥ n then some (acc, free)
  else
    match free with
    | [] => none
    | port :: rest =>
      if used port then takeGo used n rest acc
      else takeGo used n rest (acc ++ [port])

/-- Outcome of one Take call: the early error return (porter.go line 153,
the spec's InsufficientPorts), a runtime abort from indexing an empty
freePorts slice, or success with the taken ports. -/
inductive TakeOutcome where
  | insufficientPorts
  | aborted
  | took (ports : List Int)
deriving DecidableEq, Repr

/-- Take, translated from porter.go lines 148-169. On the abort the free
list has been fully consumed by the head pops; pendingPorts is untouched on
every path. -/
def Porter.Take (used : Int → Bool) (n : Nat) (p : Porter) :
    TakeOutcome × Porter :=
  if n > p.freePorts.length then (.insufficientPorts, p)
  else
    match takeGo used n p.freePorts [] with
    | none => (.aborted, { p with freePorts := [] })
    | some (ports, rest) => (.took ports, { p with freePorts := rest })

/-- The `for i, port := range p.pendingPorts` loop of checkFreedPorts
(porter.go lines 200-205), with Go slice semantics made explicit: `range`
captures the slice header once (length `n0` over the backing array `arr`),
while `p.pendingPorts = append(p.pendingPorts[:i], p.pendingPorts[i+1:]...)`
compacts the shared backing array in place and shrinks the current length
`len` by one. `port` is read from the backing array at the iteration index,
so mutations are visible to later iterations. `none` models the Go runtime
panic of `p.pendingPorts[i+1:]` when `i+1` exceeds the current length.
`fuel` counts the remaining iterations (`n0 - i`). -/
def checkStep (used : Int → Bool) (fuel i : Nat) (arr : List Int) (len : Nat)
    (free : List Int) : Option (List Int × List Int) :=
  match fuel with
  | 0 => some (arr.take len, free)
  | fuel' + 1 =>
    let port := arr.getD i 0
    if used port then checkStep used fuel' (i + 1) arr len free
    else
      if i + 1 > len then none
      else
        checkStep used fuel' (i + 1)
          (arr.take i ++ (arr.drop (i + 1)).take (len - 1 - i) ++ arr.drop (len - 1))
          (len - 1) (free ++ [port])

/-- checkFreedPorts, translated from porter.go lines 196-206 (the body run
under the mutex). -/
def Porter.checkFreedPorts (used : Int → Bool) (p : Porter) : Option Porter :=
  match checkStep used p.pendingPorts.length 0 p.pendingPorts
      p.pendingPorts.length p.freePorts with
  | none => none
  | some (pending, free) =>
    some { p with pendingPorts := pending, freePorts := free }

/-- Close, translated from porter.go lines 222-229. The body closes and nils
the listener if held; the deferred `close(p.stopCh)` then runs, which in Go
panics if the channel is already closed — modelled as `none`. -/
def Porter.Close (p : Porter) : Option Porter :=
  let p1 := if p.lnHeld then { p with lnHeld := false } else p
  if p1.stopChClosed then none else some { p1 with stopChClosed := true }

/-- Construction errors surfaced by New (porter.go lines 84-90): the spec's
RangeExhausted ("No port blocks available outside of range") and
BlockTooLarge ("Block size too big or too many blocks allocated"). -/
inductive NewError where
  | rangeExhausted
  | blockTooLarge
deriving DecidableEq, Repr

/-- New, translated from porter.go lines 71-104, with the external inputs as
parameters: the ephemeral range pair, the random block draw `blockChoice`
(Go: `rand.Int31n(effectiveMaxBlocks)`), whether the TCP bind in `alloc`
fails, and the port probe oracle. Line 94 calls `p.alloc()` and discards its
result, so a bind failure leaves `firstPort` at its zero value 0 and `ln`
nil, and New continues to the port scan (lines 97-101) and returns the
Porter with no error. -/
def New (cfg : Config) (ephemeralMin ephemeralMax blockChoice : Int)
    (bindFails : Bool) (used : Int → Bool) : Except NewError Porter :=
  let eff := adjustMaxBlocks cfg ephemeralMin ephemeralMax
  if eff ≤ 0 then .error .rangeExhausted
  else if cfg.LowerBound + eff * cfg.BlockSize > 65535 then .error .blockTooLarge
  else
    let first := cfg.LowerBound + blockChoice * cfg.BlockSize
    let firstPort := if bindFails then 0 else first
    let scanned := (List.range (cfg.BlockSize - 1).toNat).map
      (fun i => firstPort + 1 + (i : Int))
    .ok
      { blockSize := cfg.BlockSize
        firstPort := firstPort
        freePorts := scanned.filter (fun port => !used port)
        pendingPorts := []
        lnHeld := !bindFails
        stopChClosed := false }

/-- C1: the claim says that when exactly the blocks at index ≥ k overlap the
ephemeral range (k < MaxBlocks), adjustMaxBlocks sets effectiveMaxBlocks to
k. At the spec's and README's own example (LowerBound 32600, BlockSize 100,
MaxBlocks 3, ephemeral range [32768, 60999]) block 0 does not overlap while
blocks 1 and 2 do (k = 1), yet the loop, lacking a break, ends with the last
overlapping index 2, not 1. -/
theorem adjustMaxBlocks_keeps_last_overlap :
    rangeOverlap 32600 32699 32768 60999 = false ∧
    rangeOverlap 32700 32799 32768 60999 = true ∧
    rangeOverlap 32800 32899 32768 60999 = true ∧
    adjustMaxBlocks ⟨100, 3, 32600⟩ 32768 60999 = 2 ∧
    adjustMaxBlocks ⟨100, 3, 32600⟩ 32768 60999 ≠ 1 :=
  ⟨rfl, rfl, rfl, rfl, by decide⟩

/-- C2: the claim says Return appends exactly the ports strictly inside
(firstPort, firstPort + BlockSize) and drops the rest. With firstPort 10000
and BlockSize 100, the port 20000 lies far outside (10000, 10100), yet
Return appends it to pendingPorts, because line 190 bounds against
firstPort * BlockSize = 1000000 instead of firstPort + BlockSize; the
claimed invariant on pendingPorts is therefore not preserved. -/
theorem Return_appends_out_of_block_port :
    Porter.Return ⟨100, 10000, [], [], true, false⟩ [20000] =
      ⟨100, 10000, [], [20000], true, false⟩ ∧
    ¬ ((20000 : Int) < 10000 + 100) :=
  ⟨rfl, by decide⟩

/-- C3: the claim says one run of checkFreedPorts moves exactly the ports
that probe free to freePorts and removes them from pendingPorts, leaving
the in-use ones in order. With pendingPorts [1, 2, 3] and only port 3
probing in use, the in-place removal during the range loop shifts the array
under the iteration, so port 2 is never probed: the run moves only port 1
and leaves pendingPorts [2, 3], although port 2 probes free. -/
theorem checkFreedPorts_skips_shifted_port :
    Porter.checkFreedPorts (fun port => port == 3)
        ⟨100, 10000, [], [1, 2, 3], true, false⟩ =
      some ⟨100, 10000, [1], [2, 3], true, false⟩ ∧
    ((fun port => port == (3 : Int)) 2 = false) :=
  ⟨rfl, rfl⟩

/-- C4: the claim says that when the bind on the chosen block's first port
fails, New fails with an error and returns no constructed allocation. With
the default config, a non-overlapping ephemeral range, block choice 0 and a
failing bind, New instead returns a Porter with no error, firstPort left at
the zero value 0 and no listener held, because line 94 discards the result
of p.alloc(). -/
theorem New_succeeds_despite_bind_failure :
    New ⟨100, 10, 10000⟩ 32768 60999 0 true (fun _ => true) =
      .ok ⟨100, 0, [], [], false, false⟩ :=
  rfl

/-- C5: the claim says Take(n) with n ≤ |freePorts| completes without any
out-of-bounds access, returning fewer than n confirmed-free ports when the
free set starves mid-call. With freePorts [10001] and n = 1, if the popped
port re-probes as in use, the loop pops from the now-empty slice and aborts
with an index-out-of-range panic instead of returning an empty result. -/
theorem Take_aborts_on_starvation :
    Porter.Take (fun _ => true) 1 ⟨100, 10000, [10001], [], true, false⟩ =
      (.aborted, ⟨100, 10000, [], [], true, false⟩) :=
  rfl

/-- C6: the claim says a second Close is safe. The first Close on a fresh
Porter releases the listener and closes the stop channel; the second Close
runs the deferred close(p.stopCh) on an already-closed channel, which
panics (modelled as none). -/
theorem Close_double_close_panics :
    Porter.Close ⟨100, 10000, [], [], true, false⟩ =
      some ⟨100, 10000, [], [], false, true⟩ ∧
    Porter.Close ⟨100, 10000, [], [], false, true⟩ = none :=
  ⟨rfl, rfl⟩

/-- C7: Take(n) with n > |freePorts| at call time returns the
InsufficientPorts error and leaves the whole state — freePorts and
pendingPorts — unchanged. -/
theorem Take_insufficient_leaves_state (used : Int → Bool) (n : Nat)
    (p : Porter) (h : n > p.freePorts.length) :
    Porter.Take used n p = (.insufficientPorts, p) := by
  unfold Porter.Take
  rw [if_pos h]

/-- Witness for C7 at freePorts [10001] and n = 2. -/
theorem Take_insufficient_leaves_state_witness :
    Porter.Take (fun _ => false) 2 ⟨100, 10000, [10001], [], true, false⟩ =
      (.insufficientPorts, ⟨100, 10000, [10001], [], true, false⟩) :=
  Take_insufficient_leaves_state (fun _ => false) 2
    ⟨100, 10000, [10001], [], true, false⟩ (by decide)

/-- C8 counterexample: the claim says New fails with BlockTooLarge exactly
when LowerBound + effectiveMaxBlocks * BlockSize exceeds 65536, so at the
boundary value 65536 it should not fail. With LowerBound 65436, BlockSize
100, MaxBlocks 1 and a non-overlapping ephemeral range, the sum is exactly
65536, yet New fails with BlockTooLarge, because line 88 tests > 65535. -/
theorem New_blockTooLarge_at_65536 :
    New ⟨100, 1, 65436⟩ 1 2 0 false (fun _ => true) =
      .error .blockTooLarge ∧
    65436 + adjustMaxBlocks ⟨100, 1, 65436⟩ 1 2 * 100 = 65536 :=
  ⟨rfl, by decide⟩

/-- C8 amended: New fails with BlockTooLarge exactly when, after
ephemeral-range adjustment, the adjusted block count is positive (otherwise
the RangeExhausted error fires first) and
LowerBound + effectiveMaxBlocks * BlockSize exceeds 65535; in particular at
a sum of exactly 65535 it does not fail with BlockTooLarge. -/
theorem New_blockTooLarge_iff (cfg : Config) (eMin eMax blockChoice : Int)
    (bindFails : Bool) (used : Int → Bool) :
    New cfg eMin eMax blockChoice bindFails used = .error .blockTooLarge ↔
      (0 < adjustMaxBlocks cfg eMin eMax ∧
        65535 < cfg.LowerBound + adjustMaxBlocks cfg eMin eMax * cfg.BlockSize) := by
  simp only [New]
  split_ifs with h1 h2
  · simp
    omega
  · simp
    omega
  · simp
    omega

/-- C9: rangeOverlap is symmetric in its two pairs, and false whenever
either pair is inverted (min > max). -/
theorem rangeOverlap_symm_degenerate :
    (∀ min1 max1 min2 max2 : Int,
      rangeOverlap min1 max1 min2 max2 = rangeOverlap min2 max2 min1 max1) ∧
    (∀ min1 max1 min2 max2 : Int, min1 > max1 ∨ min2 > max2 →
      rangeOverlap min1 max1 min2 max2 = false) := by
  constructor
  · intro min1 max1 min2 max2
    unfold rangeOverlap
    split_ifs <;> first | rfl | exact Bool.and_comm _ _
  · intro min1 max1 min2 max2 h
    unfold rangeOverlap
    split_ifs with h1 h2
    · rfl
    · rfl
    · rcases h with h | h
      · exact absurd h h1
      · exact absurd h h2

/-- Witness for C9's degenerate-pair part at the inverted pair (5, 3). -/
theorem rangeOverlap_symm_degenerate_witness :
    rangeOverlap 5 3 0 10 = false :=
  rangeOverlap_symm_degenerate.2 5 3 0 10 (by decide)

/-- C10: frame effects — Take never changes pendingPorts (on the error, the
abort and the success path alike), and Return never changes freePorts. -/
theorem Take_Return_frame :
    (∀ (used : Int → Bool) (n : Nat) (p : Porter),
      ((Porter.Take used n p).2).pendingPorts = p.pendingPorts) ∧
    (∀ (p : Porter) (ports : List Int),
      (Porter.Return p ports).freePorts = p.freePorts) := by
  constructor
  · intro used n p
    unfold Porter.Take
    split
    · rfl
    · split <;> rfl
  · intro p ports
    unfold Porter.Return
    split <;> rfl
